import Mathlib

/-!
Verification of the book CRUD service (src/main.py) against its
specification.  The HTTP layer (route handlers, exception-to-status
translation, session lifecycle) is translated from src/main.py; the
use-case/repository layer is not present under src/, so it is modelled
from the specification, as noted on each such definition.
-/

namespace Dddpy

/-- A book row: isbn (the unique key), title, page count and the two
timestamps of the persisted table (modelled as naturals). -/
structure Book where
  isbn : String
  title : String
  page : Nat
  created_at : Nat
  updated_at : Nat
deriving DecidableEq

/-- The persisted state: the sequence of rows of the single book table. -/
abbrev Storage := List Book

/-- The exceptions that can cross the use-case boundary: the three domain
error classes imported in src/main.py lines 7-11, plus TypeError (raised
by a malformed call) and a catch-all for any other runtime failure. -/
inductive Exc where
  | bookAlreadyExistsError
  | bookNotFoundError
  | booksNotFoundError
  | typeError (msg : String)
  | otherError (msg : String)
deriving DecidableEq

/-- Modelled from the spec: each domain error class carries a fixed
class-level message attribute (src/main.py reads it as e.message and as
the class attribute in the route declarations); the concrete texts are
not under src/, so fixed placeholder texts stand for them. -/
def Exc.message : Exc → String
  | Exc.bookAlreadyExistsError => "The book you specified already exists."
  | Exc.bookNotFoundError => "The book you specified does not exist."
  | Exc.booksNotFoundError => "No books exist."
  | Exc.typeError m => m
  | Exc.otherError m => m

/-- The outcome of one request as seen by the client: either a successful
response with a status code and a body, or a raised HTTPException with a
status code and an optional detail string. -/
inductive HttpResult (α : Type) where
  | success (statusCode : Nat) (body : α)
  | httpException (statusCode : Nat) (detail : Option String)
deriving DecidableEq

/-- Status code of a request outcome. -/
def http_status {α : Type} : HttpResult α → Nat
  | HttpResult.success c _ => c
  | HttpResult.httpException c _ => c

/-- Detail field of a request outcome (none on success responses and on
HTTPExceptions raised without a detail argument). -/
def http_detail {α : Type} : HttpResult α → Option String
  | HttpResult.success _ _ => none
  | HttpResult.httpException _ d => d

/-- True when the outcome is a success response. -/
def http_is_success {α : Type} : HttpResult α → Bool
  | HttpResult.success _ _ => true
  | HttpResult.httpException _ _ => false

namespace BookUseCase

/-- Modelled from the spec: create(isbn, title, page) fails with the
AlreadyExists error if a row with that ISBN is present, otherwise
inserts the new row (both timestamps set at creation time) and returns
it.  The storage is returned unchanged on the error path. -/
def create_book (s : Storage) (isbn title : String) (page now : Nat) :
    Except Exc Book × Storage :=
  if s.any (fun b => b.isbn == isbn) then
    (Except.error Exc.bookAlreadyExistsError, s)
  else
    let b : Book := ⟨isbn, title, page, now, now⟩
    (Except.ok b, s ++ [b])

/-- Modelled from the spec: findAll returns the sequence of all books,
failing with the collection-level NotFound error when the collection is
empty. -/
def fetch_books (s : Storage) : Except Exc (List Book) × Storage :=
  if s.isEmpty then (Except.error Exc.booksNotFoundError, s) else (Except.ok s, s)

/-- Modelled from the spec: findByIsbn returns the stored book with that
ISBN, or fails with the NotFound error when it is absent. -/
def fetch_book_by_isbn (s : Storage) (isbn : String) :
    Except Exc Book × Storage :=
  match s.find? (fun b => b.isbn == isbn) with
  | some b => (Except.ok b, s)
  | none => (Except.error Exc.bookNotFoundError, s)

/-- Modelled from the spec: deleteByIsbn fails with the NotFound error if
no row with that ISBN is present, otherwise removes the row (under the
at-most-one-row-per-ISBN invariant, removing every row with that ISBN). -/
def delete_book_by_isbn (s : Storage) (isbn : String) :
    Except Exc Unit × Storage :=
  if s.any (fun b => b.isbn == isbn) then
    (Except.ok (), s.filter (fun b => !(b.isbn == isbn)))
  else
    (Except.error Exc.bookNotFoundError, s)

end BookUseCase

/-- Translation of the try/except body of create_book (src/main.py lines
56-72): a normal use-case result becomes the 201 response with the book
as body; BookAlreadyExistsError becomes HTTPException 409 with the
exception message as detail; any other exception becomes HTTPException
500 with no detail. -/
def create_book_handler : Except Exc Book → HttpResult Book
  | Except.ok book => HttpResult.success 201 book
  | Except.error Exc.bookAlreadyExistsError =>
      HttpResult.httpException 409 (some (Exc.message Exc.bookAlreadyExistsError))
  | Except.error _ => HttpResult.httpException 500 none

/-- Translation of the try/except body of get_books (src/main.py lines
89-101): a normal result becomes the 200 response; BooksNotFoundError
becomes HTTPException 404 with the exception message as detail; any
other exception becomes HTTPException 500 with no detail. -/
def get_books_handler : Except Exc (List Book) → HttpResult (List Book)
  | Except.ok books => HttpResult.success 200 books
  | Except.error Exc.booksNotFoundError =>
      HttpResult.httpException 404 (some (Exc.message Exc.booksNotFoundError))
  | Except.error _ => HttpResult.httpException 500 none

/-- Translation of the try/except body of get_book (src/main.py lines
119-131): a normal result becomes the 200 response; BookNotFoundError
becomes HTTPException 404 with the exception message as detail; any
other exception becomes HTTPException 500 with no detail. -/
def get_book_handler : Except Exc Book → HttpResult Book
  | Except.ok book => HttpResult.success 200 book
  | Except.error Exc.bookNotFoundError =>
      HttpResult.httpException 404 (some (Exc.message Exc.bookNotFoundError))
  | Except.error _ => HttpResult.httpException 500 none

/-- Translation of the try/except body of delete_book (src/main.py lines
148-158): a normal result becomes the 202 response with empty body (the
handler has no return statement); BookNotFoundError becomes HTTPException
404 with the exception message as detail; any other exception becomes
HTTPException 500 with no detail. -/
def delete_book_handler : Except Exc Unit → HttpResult Unit
  | Except.ok _ => HttpResult.success 202 ()
  | Except.error Exc.bookNotFoundError =>
      HttpResult.httpException 404 (some (Exc.message Exc.bookNotFoundError))
  | Except.error _ => HttpResult.httpException 500 none

/-- The use-case call made by the get_books route.  src/main.py line 90
reads books = book_usecase.create_book(), a zero-argument call of the
creation method instead of the list-all method; the use-case creation
method requires the isbn, title and page arguments (modelled from the
spec as a direct delegation to repository create(isbn, title, page)), so
the zero-argument call raises TypeError before touching storage, and the
storage is unchanged. -/
def get_books_usecase_call (s : Storage) : Except Exc (List Book) × Storage :=
  (Except.error
      (Exc.typeError "create_book() missing required arguments: isbn, title, page"),
    s)

/-- The POST /books route: use-case creation followed by the handler
translation of src/main.py lines 52-72. -/
def create_book (s : Storage) (isbn title : String) (page now : Nat) :
    HttpResult Book × Storage :=
  (create_book_handler (BookUseCase.create_book s isbn title page now).1,
    (BookUseCase.create_book s isbn title page now).2)

/-- The GET /books route (src/main.py lines 86-101): the use-case call it
actually makes, followed by its try/except translation. -/
def get_books (s : Storage) : HttpResult (List Book) × Storage :=
  (get_books_handler (get_books_usecase_call s).1, (get_books_usecase_call s).2)

/-- The GET /books/{book_id} route: use-case fetch-by-isbn followed by
the handler translation of src/main.py lines 115-131. -/
def get_book (s : Storage) (book_id : String) : HttpResult Book × Storage :=
  (get_book_handler (BookUseCase.fetch_book_by_isbn s book_id).1,
    (BookUseCase.fetch_book_by_isbn s book_id).2)

/-- The DELETE /books/{book_id} route: use-case delete-by-isbn followed
by the handler translation of src/main.py lines 144-158. -/
def delete_book (s : Storage) (book_id : String) : HttpResult Unit × Storage :=
  (delete_book_handler (BookUseCase.delete_book_by_isbn s book_id).1,
    (BookUseCase.delete_book_by_isbn s book_id).2)

/-- Application state for the session lifecycle: the storage plus the
number of database sessions acquired and not yet closed. -/
structure AppState where
  storage : Storage
  open_sessions : Nat
deriving DecidableEq

/-- Acquiring a session (SessionLocal() in src/main.py line 29). -/
def session_acquire (d : AppState) : AppState :=
  { d with open_sessions := d.open_sessions + 1 }

/-- Closing a session (session.close() in src/main.py line 33). -/
def session_close (d : AppState) : AppState :=
  { d with open_sessions := d.open_sessions - 1 }

/-- Translation of the get_session dependency (src/main.py lines 28-33)
wrapped around one request: the session is acquired, the request body
runs with it (its exceptions reified as HttpResult.httpException values,
so both the normal return and every raise flow through), and the finally
block closes the session on every path. -/
def run_with_session {α : Type} (body : Storage → HttpResult α × Storage)
    (d : AppState) : HttpResult α × AppState :=
  let d1 := session_acquire d
  let r := body d1.storage
  (r.1, session_close { d1 with storage := r.2 })

/-- C1: the claim states that GET /books invokes the list-all use-case
operation and returns 200 with all stored books.  The code instead calls
the creation method with no arguments (src/main.py line 90), so the
TypeError is caught by the generic branch: on a storage holding one
book the route returns HTTPException 500 with no detail and never the
book list. -/
theorem c1_get_books_is_500_on_nonempty_storage :
    get_books [⟨"9780134190440", "The C Programming Language", 272, 0, 0⟩] =
      (HttpResult.httpException 500 none,
        [⟨"9780134190440", "The C Programming Language", 272, 0, 0⟩]) := rfl

/-- C2: the claim states that GET /books on empty storage returns 404 via
BooksNotFoundError.  Because src/main.py line 90 calls the creation
method with no arguments, the route returns HTTPException 500 with no
detail on the empty storage as well, not 404. -/
theorem c2_get_books_is_500_on_empty_storage :
    get_books [] = (HttpResult.httpException 500 none, ([] : Storage)) := rfl

/-- C3: a POST /books whose ISBN is not present in storage yields status
201 with a body echoing the submitted isbn, title and page. -/
theorem c3_create_fresh_isbn_201_echoes_body
    (s : Storage) (isbn title : String) (page now : Nat)
    (h : s.any (fun b => b.isbn == isbn) = false) :
    (create_book s isbn title page now).1 =
      HttpResult.success 201 ⟨isbn, title, page, now, now⟩ := by
  simp [create_book, BookUseCase.create_book, h, create_book_handler]

/-- Witness for C3 at a concrete fresh ISBN. -/
theorem c3_witness :
    (create_book [⟨"b", "other", 9, 0, 0⟩] "9780134190440"
        "The C Programming Language" 272 5).1 =
      HttpResult.success 201
        ⟨"9780134190440", "The C Programming Language", 272, 5, 5⟩ :=
  c3_create_fresh_isbn_201_echoes_body [⟨"b", "other", 9, 0, 0⟩]
    "9780134190440" "The C Programming Language" 272 5 (by decide)

/-- C4: a POST /books whose ISBN is already present yields status 409
with the exception message as detail, and the storage (hence the
existing row) is unchanged. -/
theorem c4_create_duplicate_isbn_409_state_unchanged
    (s : Storage) (isbn title : String) (page now : Nat)
    (h : s.any (fun b => b.isbn == isbn) = true) :
    create_book s isbn title page now =
      (HttpResult.httpException 409
          (some (Exc.message Exc.bookAlreadyExistsError)), s) := by
  simp [create_book, BookUseCase.create_book, h, create_book_handler]

/-- Witness for C4 at a concrete duplicate ISBN. -/
theorem c4_witness :
    create_book [⟨"9780134190440", "The C Programming Language", 272, 0, 0⟩]
        "9780134190440" "another title" 10 7 =
      (HttpResult.httpException 409
          (some (Exc.message Exc.bookAlreadyExistsError)),
        [⟨"9780134190440", "The C Programming Language", 272, 0, 0⟩]) :=
  c4_create_duplicate_isbn_409_state_unchanged
    [⟨"9780134190440", "The C Programming Language", 272, 0, 0⟩]
    "9780134190440" "another title" 10 7 (by decide)

/-- C5: GET /books/{book_id} yields 200 with the stored book of that ISBN
exactly when such a book is present, and yields 404 with the exception
message as detail exactly when it is absent. -/
theorem c5_get_book_200_iff_present_404_iff_absent
    (s : Storage) (book_id : String) :
    ((∃ b, (get_book s book_id).1 = HttpResult.success 200 b
        ∧ b ∈ s ∧ b.isbn = book_id)
      ↔ ∃ b ∈ s, b.isbn = book_id)
    ∧ ((get_book s book_id).1 =
          HttpResult.httpException 404 (some (Exc.message Exc.bookNotFoundError))
      ↔ ¬∃ b ∈ s, b.isbn = book_id) := by
  cases hf : s.find? (fun b => b.isbn == book_id) with
  | some b =>
      have hb : b ∈ s := List.mem_of_find?_eq_some hf
      have hp : b.isbn = book_id := by
        have h2 := List.find?_some hf
        simpa using h2
      have hres : (get_book s book_id).1 = HttpResult.success 200 b := by
        simp [get_book, BookUseCase.fetch_book_by_isbn, hf, get_book_handler]
      refine ⟨⟨fun _ => ⟨b, hb, hp⟩, fun _ => ⟨b, hres, hb, hp⟩⟩, ?_, ?_⟩
      · intro hcontra
        rw [hres] at hcontra
        exact absurd hcontra (by simp)
      · intro hn
        exact absurd ⟨b, hb, hp⟩ hn
  | none =>
      have hnone : ∀ x ∈ s, ¬x.isbn = book_id := by
        intro x hx
        have h2 := List.find?_eq_none.mp hf x hx
        simpa using h2
      have hres : (get_book s book_id).1 =
          HttpResult.httpException 404 (some (Exc.message Exc.bookNotFoundError)) := by
        simp [get_book, BookUseCase.fetch_book_by_isbn, hf, get_book_handler]
      refine ⟨⟨?_, ?_⟩, fun _ => ?_, fun _ => hres⟩
      · rintro ⟨b, hbres, -, -⟩
        rw [hres] at hbres
        exact absurd hbres (by simp)
      · rintro ⟨b, hb, hp⟩
        exact absurd hp (hnone b hb)
      · rintro ⟨b, hb, hp⟩
        exact hnone b hb hp

/-- C6: DELETE /books/{book_id} on a present ISBN yields 202 with empty
body and removes the row, so that the subsequent fetch of the same ISBN
yields 404; on an absent ISBN it yields 404 and leaves the storage
unchanged. -/
theorem c6_delete_present_202_then_404_absent_404
    (s : Storage) (book_id : String) :
    (s.any (fun b => b.isbn == book_id) = true →
        delete_book s book_id =
          (HttpResult.success 202 (), s.filter (fun b => !(b.isbn == book_id)))
        ∧ (get_book (delete_book s book_id).2 book_id).1 =
            HttpResult.httpException 404 (some (Exc.message Exc.bookNotFoundError)))
    ∧ (s.any (fun b => b.isbn == book_id) = false →
        delete_book s book_id =
          (HttpResult.httpException 404 (some (Exc.message Exc.bookNotFoundError)), s)) := by
  constructor
  · intro h
    have hd : delete_book s book_id =
        (HttpResult.success 202 (), s.filter (fun b => !(b.isbn == book_id))) := by
      simp [delete_book, BookUseCase.delete_book_by_isbn, h, delete_book_handler]
    refine ⟨hd, ?_⟩
    have hf : (s.filter (fun b => !(b.isbn == book_id))).find?
        (fun b => b.isbn == book_id) = none := by
      rw [List.find?_eq_none]
      intro x hx
      have hx2 := (List.mem_filter.mp hx).2
      simp at hx2 ⊢
      exact hx2
    rw [hd]
    simp [get_book, BookUseCase.fetch_book_by_isbn, hf, get_book_handler]
  · intro h
    simp [delete_book, BookUseCase.delete_book_by_isbn, h, delete_book_handler]

/-- Witness for C6: deleting the one stored book answers 202, the fetch
after it answers 404, and deleting from empty storage answers 404. -/
theorem c6_witness :
    (delete_book [⟨"a", "t", 1, 0, 0⟩] "a" =
        (HttpResult.success 202 (),
          List.filter (fun b => !(b.isbn == "a")) [⟨"a", "t", 1, 0, 0⟩])
      ∧ (get_book (delete_book [⟨"a", "t", 1, 0, 0⟩] "a").2 "a").1 =
          HttpResult.httpException 404 (some (Exc.message Exc.bookNotFoundError)))
    ∧ delete_book [] "zzz" =
        (HttpResult.httpException 404 (some (Exc.message Exc.bookNotFoundError)),
          ([] : Storage)) :=
  ⟨(c6_delete_present_202_then_404_absent_404 [⟨"a", "t", 1, 0, 0⟩] "a").1 (by decide),
    (c6_delete_present_202_then_404_absent_404 [] "zzz").2 (by decide)⟩

/-- C7: in every route handler, an exception other than the handled
domain error of that route is translated to HTTPException 500 with no
detail. -/
theorem c7_unhandled_exception_maps_to_bodiless_500 (e : Exc) :
    (e ≠ Exc.bookAlreadyExistsError →
        create_book_handler (Except.error e) = HttpResult.httpException 500 none)
    ∧ (e ≠ Exc.booksNotFoundError →
        get_books_handler (Except.error e) = HttpResult.httpException 500 none)
    ∧ (e ≠ Exc.bookNotFoundError →
        get_book_handler (Except.error e) = HttpResult.httpException 500 none)
    ∧ (e ≠ Exc.bookNotFoundError →
        delete_book_handler (Except.error e) = HttpResult.httpException 500 none) := by
  cases e <;>
    simp [create_book_handler, get_books_handler, get_book_handler,
      delete_book_handler]

/-- Witness for C7 at a concrete unhandled exception. -/
theorem c7_witness :
    create_book_handler (Except.error (Exc.otherError "storage failure")) =
        HttpResult.httpException 500 none
    ∧ get_books_handler (Except.error (Exc.otherError "storage failure")) =
        HttpResult.httpException 500 none
    ∧ get_book_handler (Except.error (Exc.otherError "storage failure")) =
        HttpResult.httpException 500 none
    ∧ delete_book_handler (Except.error (Exc.otherError "storage failure")) =
        HttpResult.httpException 500 none := by
  have h := c7_unhandled_exception_maps_to_bodiless_500 (Exc.otherError "storage failure")
  exact ⟨h.1 (by decide), h.2.1 (by decide), h.2.2.1 (by decide), h.2.2.2 (by decide)⟩

/-- C8: a request to any of the four routes acquires one session at the
start and the finally block closes it on completion, so the number of
open sessions after the request equals the number before it, whatever
the outcome of the route body. -/
theorem c8_session_closed_after_every_request
    (d : AppState) (isbn title book_id : String) (page now : Nat) :
    (session_acquire d).open_sessions = d.open_sessions + 1
    ∧ (run_with_session (fun s => create_book s isbn title page now) d).2.open_sessions
        = d.open_sessions
    ∧ (run_with_session get_books d).2.open_sessions = d.open_sessions
    ∧ (run_with_session (fun s => get_book s book_id) d).2.open_sessions
        = d.open_sessions
    ∧ (run_with_session (fun s => delete_book s book_id) d).2.open_sessions
        = d.open_sessions := by
  refine ⟨rfl, ?_, ?_, ?_, ?_⟩ <;>
    simp [run_with_session, session_acquire, session_close]

/-- A handler outcome is either the success response of its route or an
HTTPException whose status is 409, 404 or 500. -/
def handled_statuses {α : Type} (r : HttpResult α) (okStatus : Nat) : Prop :=
  (http_is_success r = true ∧ http_status r = okStatus)
  ∨ (http_is_success r = false
      ∧ (http_status r = 409 ∨ http_status r = 404 ∨ http_status r = 500))

/-- C9: every route handler, on every possible use-case outcome,
terminates with either its success response or an HTTPException whose
status is one of 409, 404 and 500; no other exception escapes. -/
theorem c9_handlers_total_over_all_exceptions
    (rb rg : Except Exc Book) (rl : Except Exc (List Book)) (ru : Except Exc Unit) :
    handled_statuses (create_book_handler rb) 201
    ∧ handled_statuses (get_books_handler rl) 200
    ∧ handled_statuses (get_book_handler rg) 200
    ∧ handled_statuses (delete_book_handler ru) 202 := by
  refine ⟨?_, ?_, ?_, ?_⟩
  · rcases rb with e | b
    · cases e <;>
        simp [create_book_handler, handled_statuses, http_is_success, http_status]
    · simp [create_book_handler, handled_statuses, http_is_success, http_status]
  · rcases rl with e | bs
    · cases e <;>
        simp [get_books_handler, handled_statuses, http_is_success, http_status]
    · simp [get_books_handler, handled_statuses, http_is_success, http_status]
  · rcases rg with e | b
    · cases e <;>
        simp [get_book_handler, handled_statuses, http_is_success, http_status]
    · simp [get_book_handler, handled_statuses, http_is_success, http_status]
  · rcases ru with e | u
    · cases e <;>
        simp [delete_book_handler, handled_statuses, http_is_success, http_status]
    · simp [delete_book_handler, handled_statuses, http_is_success, http_status]

/-- C10: whenever a route answers with the handled 409 or 404, the detail
is exactly the message attribute of the raised domain error (for the
list route the handled branch is stated on its handler, since the route
body as written never raises BooksNotFoundError). -/
theorem c10_handled_detail_is_exception_message
    (s : Storage) (isbn title book_id : String) (page now : Nat) :
    (http_status (create_book s isbn title page now).1 = 409 →
        http_detail (create_book s isbn title page now).1 =
          some (Exc.message Exc.bookAlreadyExistsError))
    ∧ get_books_handler (Except.error Exc.booksNotFoundError) =
        HttpResult.httpException 404 (some (Exc.message Exc.booksNotFoundError))
    ∧ (http_status (get_book s book_id).1 = 404 →
        http_detail (get_book s book_id).1 =
          some (Exc.message Exc.bookNotFoundError))
    ∧ (http_status (delete_book s book_id).1 = 404 →
        http_detail (delete_book s book_id).1 =
          some (Exc.message Exc.bookNotFoundError)) := by
  refine ⟨?_, rfl, ?_, ?_⟩
  · intro h
    cases hc : s.any (fun b => b.isbn == isbn) with
    | true =>
        simp [create_book, BookUseCase.create_book, hc, create_book_handler,
          http_detail]
    | false =>
        exfalso
        simp [create_book, BookUseCase.create_book, hc, create_book_handler,
          http_status] at h
  · intro h
    cases hf : s.find? (fun b => b.isbn == book_id) with
    | some b =>
        exfalso
        simp [get_book, BookUseCase.fetch_book_by_isbn, hf, get_book_handler,
          http_status] at h
    | none =>
        simp [get_book, BookUseCase.fetch_book_by_isbn, hf, get_book_handler,
          http_detail]
  · intro h
    cases hc : s.any (fun b => b.isbn == book_id) with
    | true =>
        exfalso
        simp [delete_book, BookUseCase.delete_book_by_isbn, hc,
          delete_book_handler, http_status] at h
    | false =>
        simp [delete_book, BookUseCase.delete_book_by_isbn, hc,
          delete_book_handler, http_detail]

/-- Witness for C10: a duplicate create, an absent fetch and an absent
delete all carry the corresponding exception message as detail. -/
theorem c10_witness :
    http_detail (create_book [⟨"a", "t", 1, 0, 0⟩] "a" "t2" 2 1).1 =
        some (Exc.message Exc.bookAlreadyExistsError)
    ∧ get_books_handler (Except.error Exc.booksNotFoundError) =
        HttpResult.httpException 404 (some (Exc.message Exc.booksNotFoundError))
    ∧ http_detail (get_book [⟨"a", "t", 1, 0, 0⟩] "zzz").1 =
        some (Exc.message Exc.bookNotFoundError)
    ∧ http_detail (delete_book [⟨"a", "t", 1, 0, 0⟩] "zzz").1 =
        some (Exc.message Exc.bookNotFoundError) := by
  have h := c10_handled_detail_is_exception_message [⟨"a", "t", 1, 0, 0⟩] "a" "t2" "zzz" 2 1
  exact ⟨h.1 (by decide), h.2.1, h.2.2.1 (by decide), h.2.2.2 (by decide)⟩

end Dddpy
